import Mathlib

/-!
Verification development for the lfpweather-forecast-inference-api repository.

The Go sources are shallowly embedded below: pure functions become Lean
functions; each HTTP handler becomes a pure function of an explicit
environment record that captures the outcomes of its external calls
(cache read/write, upstream forecast fetch, inference call, JSON codecs
of the external encoding/json library).  Machine integers are modelled
as Int (no overflow is relevant to any property below); time.Time values
are modelled as integer timestamps; a Go `panic` (slice index out of
range) is modelled as an explicit outcome constructor.
-/

/-! ## internal/nws/nws.go -/

/-- One entry of `ForecastResponse.Properties.Periods` (internal/nws/nws.go).
Float-valued fields of the surrounding response (coordinates, elevation,
probabilityOfPrecipitation) are not consumed by any code under test and are
omitted; timestamps are modelled as integers. -/
structure ForecastPeriodRaw where
  Number : Int
  Name : String
  StartTime : Int
  EndTime : Int
  IsDaytime : Bool
  Temperature : Int
  TemperatureUnit : String
  TemperatureTrend : String
  WindSpeed : String
  WindDirection : String
  Icon : String
  ShortForecast : String
  DetailedForecast : String
deriving DecidableEq, Repr

/-- `ForecastResponse.Properties` (internal/nws/nws.go). -/
structure ForecastProperties where
  Units : String
  ForecastGenerator : String
  GeneratedAt : Int
  UpdateTime : Int
  ValidTimes : String
  Periods : List ForecastPeriodRaw
deriving DecidableEq, Repr

/-- `ForecastResponse` (internal/nws/nws.go). -/
structure ForecastResponse where
  type : String
  Properties : ForecastProperties
deriving DecidableEq, Repr

/-- `SimplifiedForecastPeriods` (internal/nws/nws.go). -/
structure SimplifiedForecastPeriods where
  DetailedForecast : String
  ShortForecast : String
  StartTime : Int
  EndTime : Int
  Temperature : Int
  WindSpeed : String
  WindDirection : String
  Name : String
deriving DecidableEq, Repr

/-- `forecastResponeToSimplifiedForecastPeriods` (internal/nws/nws.go,
lines 111-126; the Go append loop over `forecast.Properties.Periods`),
source typo preserved. -/
def forecastResponeToSimplifiedForecastPeriods (forecast : ForecastResponse) :
    List SimplifiedForecastPeriods :=
  forecast.Properties.Periods.map (fun period =>
    { DetailedForecast := period.DetailedForecast
      ShortForecast := period.ShortForecast
      StartTime := period.StartTime
      EndTime := period.EndTime
      Temperature := period.Temperature
      WindSpeed := period.WindSpeed
      WindDirection := period.WindDirection
      Name := period.Name })

/-- Result of `GetSimplifiedForecastNPeriods`: either a period list or a Go
runtime panic (slice bound out of range). -/
inductive NPeriodsResult
  | periods (ps : List SimplifiedForecastPeriods)
  | panicked
deriving DecidableEq, Repr

/-- `GetSimplifiedForecastNPeriods` (internal/nws/nws.go, lines 98-109),
given the already-fetched upstream response (the network fetch itself is
external).  The Go code returns everything for `n == -1` and otherwise
evaluates the slice expression `s[:n]`, which panics when `n` is negative
or exceeds the slice bound (slice capacity — a runtime allocation detail
the language leaves unspecified for append-built slices — is modelled as
equal to the length, the only bound the language guarantees). -/
def GetSimplifiedForecastNPeriods (forecast : ForecastResponse) (n : Int) :
    NPeriodsResult :=
  let simplified := forecastResponeToSimplifiedForecastPeriods forecast
  if n = -1 then
    .periods simplified
  else if 0 ≤ n ∧ n ≤ (simplified.length : Int) then
    .periods (simplified.take n.toNat)
  else
    .panicked

/-! ## internal/handlers/forecast.go: records and the join -/

/-- `ForecastSummaryResponse` (internal/handlers/forecast.go, lines 23-27). -/
structure ForecastSummaryResponse where
  Summary : String
  Icon : String
  LastUpdated : Int
deriving DecidableEq, Repr

/-- `GetForecastPeriodsInformation` the struct (internal/handlers/forecast.go,
lines 209-214): one LLM-derived per-period record. -/
structure GetForecastPeriodsInformation where
  Name : String
  TimeOfDay : String
  Icon : String
  Beaufort : String
deriving DecidableEq, Repr

/-- `JoinedForecastPeriodsInformation` (internal/handlers/forecast.go,
lines 216-228). -/
structure JoinedForecastPeriodsInformation where
  Name : String
  TimeOfDay : String
  Icon : String
  Beaufort : String
  DetailedForecast : String
  ShortForecast : String
  StartTime : Int
  EndTime : Int
  Temperature : Int
  WindSpeed : String
  WindDirection : String
deriving DecidableEq, Repr

/-- `JoinForecastPeriodsInformation` (internal/handlers/forecast.go,
lines 230-244). -/
def JoinForecastPeriodsInformation (fpi : GetForecastPeriodsInformation)
    (period : SimplifiedForecastPeriods) : JoinedForecastPeriodsInformation :=
  { Name := fpi.Name
    TimeOfDay := fpi.TimeOfDay
    Icon := fpi.Icon
    Beaufort := fpi.Beaufort
    DetailedForecast := period.DetailedForecast
    ShortForecast := period.ShortForecast
    StartTime := period.StartTime
    EndTime := period.EndTime
    Temperature := period.Temperature
    WindSpeed := period.WindSpeed
    WindDirection := period.WindDirection }

/-- The join loop of `GetForcastPeriodsInformation` (internal/handlers/
forecast.go, lines 423-430): starting from an empty slice, for each source
period, for each LLM record, append the joined record when the names are
equal. -/
def joinAllForecastPeriodsInformation (periods : List SimplifiedForecastPeriods)
    (fpi : List GetForecastPeriodsInformation) :
    List JoinedForecastPeriodsInformation :=
  periods.foldl
    (fun acc period =>
      fpi.foldl
        (fun acc2 fpiPeriod =>
          if period.Name == fpiPeriod.Name then
            acc2 ++ [JoinForecastPeriodsInformation fpiPeriod period]
          else
            acc2)
        acc)
    []

/-- `GetForecastPeriodsInformationResponse` (internal/handlers/forecast.go,
lines 246-249). -/
structure GetForecastPeriodsInformationResponse where
  Periods : List JoinedForecastPeriodsInformation
  LastUpdated : Int
deriving DecidableEq, Repr

/-! ## encoding/json output model

The handlers serve bodies produced by `json.Marshal` on the response
structs.  The encoder is modelled concretely: fields in struct-tag order,
strings quoted with the usual escapes, integers in decimal.  Timestamps
(Go `time.Time`) are modelled as bare integers rather than RFC 3339
strings; `json.Marshal` cannot fail on these struct shapes, so the
handlers' marshal-error branches are unreachable in the model. -/

/-- JSON escaping of a single character (quote, backslash and the control
characters used anywhere in this development). -/
def jsonEscapeChar (c : Char) : String :=
  if c = '"' then "\\\""
  else if c = '\\' then "\\\\"
  else if c = '\n' then "\\n"
  else if c = '\t' then "\\t"
  else if c = '\r' then "\\r"
  else String.singleton c

/-- JSON escaping of a string body. -/
def jsonEscape (s : String) : String :=
  String.join (s.toList.map jsonEscapeChar)

/-- A JSON string literal. -/
def jsonStr (s : String) : String :=
  "\"" ++ jsonEscape s ++ "\""

/-- `json.Marshal` on `ForecastSummaryResponse` (tags `summary`, `icon`,
`last_updated`). -/
def marshalSummary (f : ForecastSummaryResponse) : String :=
  "\x7b\"summary\":" ++ jsonStr f.Summary ++
  ",\"icon\":" ++ jsonStr f.Icon ++
  ",\"last_updated\":" ++ toString f.LastUpdated ++ "\x7d"

/-- `json.Marshal` on `JoinedForecastPeriodsInformation` (tags in struct
order). -/
def marshalJoinedPeriod (j : JoinedForecastPeriodsInformation) : String :=
  "\x7b\"name\":" ++ jsonStr j.Name ++
  ",\"time_of_day\":" ++ jsonStr j.TimeOfDay ++
  ",\"icon\":" ++ jsonStr j.Icon ++
  ",\"beaufort\":" ++ jsonStr j.Beaufort ++
  ",\"detailed_forecast\":" ++ jsonStr j.DetailedForecast ++
  ",\"short_forecast\":" ++ jsonStr j.ShortForecast ++
  ",\"start_time\":" ++ toString j.StartTime ++
  ",\"end_time\":" ++ toString j.EndTime ++
  ",\"temperature\":" ++ toString j.Temperature ++
  ",\"wind_speed\":" ++ jsonStr j.WindSpeed ++
  ",\"wind_direction\":" ++ jsonStr j.WindDirection ++ "\x7d"

/-- `json.Marshal` on `GetForecastPeriodsInformationResponse` (tags
`periods`, `last_updated`). -/
def marshalPeriodsResponse (r : GetForecastPeriodsInformationResponse) : String :=
  "\x7b\"periods\":[" ++
  String.intercalate "," (r.Periods.map marshalJoinedPeriod) ++
  "],\"last_updated\":" ++ toString r.LastUpdated ++ "\x7d"

/-! ## Handler environments and outcomes

Each handler is a pure function of an environment record holding the
outcomes of its external interactions for the request being modelled:
the Redis/Dragonfly read (`go-redis` `Get(...).Result()`), the
`encoding/json` unmarshal codecs (a post-call struct value together with
an error flag, since Go's `json.Unmarshal` both may fail and may leave a
partially written destination), the NWS fetch, the Anthropic messages
call (its list of content-block texts), `time.Now()`, and whether the
cache `Set` errors. -/

/-- Outcome of the cache `Get(...).Result()` call: a value with nil error,
`redis.Nil` (key not found), or any other error. -/
inductive CacheGetResult
  | found (value : String)
  | errNil
  | errOther
deriving DecidableEq, Repr

/-- The `slog.Error` events a handler can emit. -/
inductive LogEvent
  | cacheReadError
  | cacheUnmarshalError
  | cacheWriteError
deriving DecidableEq, Repr

/-- Terminal outcome of a handler: a 200 body, an RFC 9457 problem
response (title and status), or a Go runtime panic. -/
inductive HandlerResult
  | ok (body : String)
  | errResp (title : String) (status : Nat)
  | panicked (reason : String)
deriving DecidableEq, Repr

/-- Environment of `GetForecastSummary` (internal/handlers/forecast.go,
lines 29-207). `unmarshalSummary s` is the pair (struct value left in
`fsr` after `json.Unmarshal(s, &fsr)`, whether that call returned an
error); it is used both for the cache-hit decode and for the strict parse
of the inference reply, which in the source are the same library call on
the same type. -/
structure SummaryEnv where
  cacheGet : CacheGetResult
  unmarshalSummary : String → ForecastSummaryResponse × Bool
  nwsResult : Option (List SimplifiedForecastPeriods)
  inferenceContent : Option (List String)
  now : Int
  cacheSetErr : Bool

/-- Environment of `GetForcastPeriodsInformation` (internal/handlers/
forecast.go, lines 251-456). `unmarshalResponse` decodes a cached blob
into `GetForecastPeriodsInformationResponse`; `unmarshalInfoList` decodes
the inference reply into `[]GetForecastPeriodsInformation`. -/
structure PeriodsEnv where
  cacheGet : CacheGetResult
  unmarshalResponse : String → GetForecastPeriodsInformationResponse × Bool
  unmarshalInfoList : String → List GetForecastPeriodsInformation × Bool
  nwsResult : Option (List SimplifiedForecastPeriods)
  inferenceContent : Option (List String)
  now : Int
  cacheSetErr : Bool

/-- Miss path of `GetForecastSummary` (internal/handlers/forecast.go,
lines 61-207): fetch periods (500 on error), build the prompt (pure),
call the model (500 on error), read `message.Content[0].Text` (panic on
an empty content slice), strictly parse the reply (500 on error), stamp
`LastUpdated` with `time.Now()`, marshal, write to cache (write error
only logged), and serve 200. -/
def getForecastSummaryMiss (env : SummaryEnv) (logs : List LogEvent) :
    HandlerResult × List LogEvent :=
  match env.nwsResult with
  | none => (.errResp "failed to get simplified forecast periods" 500, logs)
  | some _periods =>
    match env.inferenceContent with
    | none => (.errResp "failed to get forecast summary" 500, logs)
    | some [] => (.panicked "index out of range [0] with length 0", logs)
    | some (text :: _) =>
      let parsed := env.unmarshalSummary text
      if parsed.2 then
        (.errResp "failed to unmarshal forecast summary" 500, logs)
      else
        let fsr : ForecastSummaryResponse :=
          ⟨parsed.1.Summary, parsed.1.Icon, env.now⟩
        let fsrJson := marshalSummary fsr
        if env.cacheSetErr then
          (.ok fsrJson, logs ++ [.cacheWriteError])
        else
          (.ok fsrJson, logs)

/-- `GetForecastSummary` (internal/handlers/forecast.go, lines 29-207).
A non-nil, non-`redis.Nil` read error is logged and falls through to the
miss path; a nil error with a non-empty value is a hit: decode (error
only logged), re-marshal the decoded struct, serve 200; a `redis.Nil`
error or an empty value falls through to the miss path. -/
def GetForecastSummary (env : SummaryEnv) : HandlerResult × List LogEvent :=
  match env.cacheGet with
  | .errOther => getForecastSummaryMiss env [.cacheReadError]
  | .errNil => getForecastSummaryMiss env []
  | .found res =>
    if res = "" then
      getForecastSummaryMiss env []
    else
      let parsed := env.unmarshalSummary res
      let logs := if parsed.2 then [LogEvent.cacheUnmarshalError] else []
      (.ok (marshalSummary parsed.1), logs)

/-- Miss path of `GetForcastPeriodsInformation` (internal/handlers/
forecast.go, lines 283-456): fetch all periods, call the model, read
`message.Content[0].Text` (panic on an empty content slice), strictly
parse the reply, run the join loop, stamp `LastUpdated`, marshal, write
to cache (write error only logged), serve 200. -/
def getForcastPeriodsInformationMiss (env : PeriodsEnv) (logs : List LogEvent) :
    HandlerResult × List LogEvent :=
  match env.nwsResult with
  | none => (.errResp "failed to get simplified forecast periods" 500, logs)
  | some periods =>
    match env.inferenceContent with
    | none => (.errResp "failed to get forecast periods information" 500, logs)
    | some [] => (.panicked "index out of range [0] with length 0", logs)
    | some (text :: _) =>
      let parsed := env.unmarshalInfoList text
      if parsed.2 then
        (.errResp "failed to unmarshal forecast periods information" 500, logs)
      else
        let joinedPeriods := joinAllForecastPeriodsInformation periods parsed.1
        let fpiResponse : GetForecastPeriodsInformationResponse :=
          ⟨joinedPeriods, env.now⟩
        let fpiJson := marshalPeriodsResponse fpiResponse
        if env.cacheSetErr then
          (.ok fpiJson, logs ++ [.cacheWriteError])
        else
          (.ok fpiJson, logs)

/-- `GetForcastPeriodsInformation` (internal/handlers/forecast.go,
lines 251-456; source typo preserved), with the same cache-aside shape as
`GetForecastSummary`. -/
def GetForcastPeriodsInformation (env : PeriodsEnv) :
    HandlerResult × List LogEvent :=
  match env.cacheGet with
  | .errOther => getForcastPeriodsInformationMiss env [.cacheReadError]
  | .errNil => getForcastPeriodsInformationMiss env []
  | .found res =>
    if res = "" then
      getForcastPeriodsInformationMiss env []
    else
      let parsed := env.unmarshalResponse res
      let logs := if parsed.2 then [LogEvent.cacheUnmarshalError] else []
      (.ok (marshalPeriodsResponse parsed.1), logs)

/-! ## internal/middleware/middleware.go -/

/-- `AuthenticationMode` (internal/middleware/middleware.go): the only
constant the repository ever constructs is `AuthenticationModeAPIKey`
(iota value 0, also the Go zero value), so the middleware's `default`
switch branch is unreachable and the mode is modelled with that single
constructor. -/
inductive AuthenticationMode
  | apiKey
deriving DecidableEq, Repr

/-- `AuthenticationMiddlewareClient` (internal/middleware/middleware.go). -/
structure AuthenticationMiddlewareClient where
  Mode : AuthenticationMode
  APIKeys : List String
deriving DecidableEq, Repr

/-- Outcome of the middleware on a request: an RFC 9457 problem response
(title, detail and the status placed both on the response and in the
body's `status` field), or handing the request to the wrapped handler. -/
inductive MiddlewareOutcome
  | problem (title : String) (detail : String) (status : Nat)
  | next
deriving DecidableEq, Repr

/-- `AuthenticationMiddleware` (internal/middleware/middleware.go,
lines 38-63) applied to a request, as a function of the request's
`X-API-Key` header value; Go's `r.Header.Get` yields `""` when the
header is absent.  The key loop with early break is the list `any`. -/
def AuthenticationMiddleware (amc : AuthenticationMiddlewareClient)
    (headerXAPIKey : String) : MiddlewareOutcome :=
  match amc.Mode with
  | .apiKey =>
    if amc.APIKeys.any (fun key => headerXAPIKey == key) then
      .next
    else
      .problem "invalid api key" (headerXAPIKey ++ " is not a valid api key") 401

/-! ## Prompt builder (internal/handlers/forecast.go, lines 458-482) -/

/-- `MultiShot` (internal/handlers/forecast.go, lines 458-461). -/
structure MultiShot where
  Input : String
  Output : String
deriving DecidableEq, Repr

/-- `multiShotWrapper` (internal/handlers/forecast.go, lines 463-478):
a `strings.Builder` seeded with `<examples>`, extended per example, and
closed with `</examples>`. -/
def multiShotWrapper (ms : List MultiShot) : String :=
  (ms.foldl
    (fun sb m =>
      sb ++ "<example>" ++ "input: " ++ m.Input ++ "\noutput: " ++ m.Output ++
        "</example>")
    "<examples>") ++ "</examples>"

/-- `buildFinalPrompt` (internal/handlers/forecast.go, lines 480-482):
`fmt.Sprintf` with verb `%s\n\n%s\n\n%s` over the instruction, the
wrapped examples and `input: ` ++ payload. -/
def buildFinalPrompt (prompt : String) (ms : List MultiShot)
    (inputData : String) : String :=
  prompt ++ "\n\n" ++ multiShotWrapper ms ++ "\n\n" ++ ("input: " ++ inputData)

/-- Spec-side wrapper of one worked example, following the spec's words for
the fixed example-delimiter format (for comparison with the source's
`multiShotWrapper`). -/
def specWrapExample (m : MultiShot) : String :=
  "<example>" ++ "input: " ++ m.Input ++ "\noutput: " ++ m.Output ++ "</example>"

/-- Spec-side concatenation of the wrapped examples in list order. -/
def specExamplesConcat : List MultiShot → String
  | [] => ""
  | m :: rest => specWrapExample m ++ specExamplesConcat rest

/-- Spec-side final prompt, following the spec's words: the instruction,
then every example wrapped in the fixed delimiter format in list order,
then the literal payload prefixed with the `input: ` label (for
comparison with the source's `buildFinalPrompt`). -/
def specPromptConcat (prompt : String) (ms : List MultiShot)
    (inputData : String) : String :=
  prompt ++ "\n\n" ++ "<examples>" ++ specExamplesConcat ms ++ "</examples>" ++
    "\n\n" ++ "input: " ++ inputData

/-! ## Concrete sample values (used to instantiate the theorems below) -/

/-- A sample raw upstream period. -/
def rawPeriod0 : ForecastPeriodRaw :=
  ⟨1, "Tonight", 100, 200, false, 54, "F", "", "2 mph", "E", "",
   "Mostly Cloudy", "Mostly cloudy, with a low around 54."⟩

/-- A sample upstream response with a single period. -/
def forecast0 : ForecastResponse :=
  ⟨"Feature", ⟨"us", "gen", 0, 0, "valid", [rawPeriod0]⟩⟩

/-- A sample simplified source period named `Tonight`. -/
def periodX : SimplifiedForecastPeriods :=
  ⟨"Mostly cloudy, with a low around 54.", "Mostly Cloudy", 100, 200, 54,
   "2 mph", "E", "Tonight"⟩

/-- A sample simplified source period named `Sunday`. -/
def periodY : SimplifiedForecastPeriods :=
  ⟨"Mostly sunny.", "Mostly Sunny", 200, 300, 74, "1 to 6 mph", "SW", "Sunday"⟩

/-- A sample LLM record for `Tonight`. -/
def annX1 : GetForecastPeriodsInformation :=
  ⟨"Tonight", "night", "cloud-moon", "Light air"⟩

/-- A second, distinct LLM record that also carries the name `Tonight`. -/
def annX2 : GetForecastPeriodsInformation :=
  ⟨"Tonight", "night", "cloud", "Light breeze"⟩

/-- Summary-handler environment: cache hit on the non-JSON blob `corrupt`
whose decode fails leaving the zero-valued struct (as Go's `json.Unmarshal`
does on input that is not JSON). -/
def envS2 : SummaryEnv :=
  ⟨.found "corrupt", fun _ => (⟨"", "", 0⟩, true), none, none, 0, false⟩

/-- Periods-handler environment: cache hit on the non-JSON blob `corrupt`
whose decode fails leaving the zero-valued struct. -/
def envP2 : PeriodsEnv :=
  ⟨.found "corrupt", fun _ => (⟨[], 0⟩, true), fun _ => ([], false), none,
   none, 0, false⟩

/-- Summary-handler environment: cache read and write both fail, the miss
path succeeds. -/
def envS5 : SummaryEnv :=
  ⟨.errOther, fun _ => (⟨"Cloudy tonight with a low around 54.", "cloud-moon", 99⟩, false),
   some [periodX], some ["reply"], 7, true⟩

/-- Periods-handler environment: cache read and write both fail, the miss
path succeeds. -/
def envP5 : PeriodsEnv :=
  ⟨.errOther, fun _ => (⟨[], 0⟩, true), fun _ => ([annX1], false),
   some [periodX], some ["reply"], 7, true⟩

/-- Summary-handler environment: miss with an inference reply whose content
slice is empty. -/
def envS9 : SummaryEnv :=
  ⟨.errNil, fun _ => (⟨"", "", 0⟩, true), some [periodX], some [], 0, false⟩

/-- Periods-handler environment: miss with an inference reply whose content
slice is empty. -/
def envP9 : PeriodsEnv :=
  ⟨.errNil, fun _ => (⟨[], 0⟩, true), fun _ => ([], true), some [periodX],
   some [], 0, false⟩

/-- Summary-handler environment: successful cache read of the empty string. -/
def envS10a : SummaryEnv :=
  ⟨.found "", fun _ => (⟨"", "", 0⟩, true), some [periodX], some ["reply"],
   0, false⟩

/-- Summary-handler environment: successful cache read of a non-empty value
that decodes cleanly. -/
def envS10b : SummaryEnv :=
  ⟨.found "\x7b\"summary\":\"hi\"\x7d",
   fun _ => (⟨"hi", "", 0⟩, false), none, none, 0, false⟩

/-- Periods-handler environment: successful cache read of the empty string. -/
def envP10a : PeriodsEnv :=
  ⟨.found "", fun _ => (⟨[], 0⟩, true), fun _ => ([], true), some [periodX],
   some ["reply"], 0, false⟩

/-- Periods-handler environment: successful cache read of a non-empty value
that decodes cleanly. -/
def envP10b : PeriodsEnv :=
  ⟨.found "\x7b\"periods\":[]\x7d", fun _ => (⟨[], 5⟩, false),
   fun _ => ([], true), none, none, 0, false⟩

/-! ## Helper lemmas about the join loop -/

/-- The matcher the join loop uses for a fixed source period. -/
def joinMatches (p : SimplifiedForecastPeriods)
    (a : GetForecastPeriodsInformation) : Bool :=
  p.Name == a.Name

theorem joinInner_eq (p : SimplifiedForecastPeriods)
    (fpi : List GetForecastPeriodsInformation)
    (acc : List JoinedForecastPeriodsInformation) :
    fpi.foldl
      (fun acc2 fpiPeriod =>
        if p.Name == fpiPeriod.Name then
          acc2 ++ [JoinForecastPeriodsInformation fpiPeriod p]
        else
          acc2)
      acc
      = acc ++ (fpi.filter (joinMatches p)).map
          (fun a => JoinForecastPeriodsInformation a p) := by
  induction fpi generalizing acc with
  | nil => simp
  | cons a rest ih =>
    rw [List.foldl_cons, ih, List.filter_cons]
    cases h : joinMatches p a with
    | false =>
      have h' : ¬((p.Name == a.Name) = true) := by
        simpa [joinMatches] using h
      rw [if_neg h', if_neg (by simp [h])]
    | true =>
      have h' : (p.Name == a.Name) = true := by
        simpa [joinMatches] using h
      rw [if_pos h', if_pos (by simp [h])]
      simp [List.append_assoc]

theorem joinOuter_eq (periods : List SimplifiedForecastPeriods)
    (fpi : List GetForecastPeriodsInformation)
    (acc : List JoinedForecastPeriodsInformation) :
    periods.foldl
      (fun acc period =>
        fpi.foldl
          (fun acc2 fpiPeriod =>
            if period.Name == fpiPeriod.Name then
              acc2 ++ [JoinForecastPeriodsInformation fpiPeriod period]
            else
              acc2)
          acc)
      acc
      = acc ++ periods.flatMap (fun p =>
          (fpi.filter (joinMatches p)).map
            (fun a => JoinForecastPeriodsInformation a p)) := by
  induction periods generalizing acc with
  | nil => simp
  | cons p rest ih =>
    rw [List.foldl_cons, ih, joinInner_eq, List.flatMap_cons,
      List.append_assoc]

/-- The join loop, rewritten: one output entry per (source period, LLM
record) pair with equal names, grouped by source-period position and, inside
a group, ordered by LLM-record position. -/
theorem joinAll_eq_flatMap (periods : List SimplifiedForecastPeriods)
    (fpi : List GetForecastPeriodsInformation) :
    joinAllForecastPeriodsInformation periods fpi
      = periods.flatMap (fun p =>
          (fpi.filter (joinMatches p)).map
            (fun a => JoinForecastPeriodsInformation a p)) := by
  simpa [joinAllForecastPeriodsInformation] using joinOuter_eq periods fpi []

theorem filter_eq_findQ_toList (p : SimplifiedForecastPeriods)
    (fpi : List GetForecastPeriodsInformation)
    (hdist : fpi.Pairwise (fun x y => x.Name ≠ y.Name)) :
    fpi.filter (joinMatches p) = (fpi.find? (joinMatches p)).toList := by
  induction fpi with
  | nil => simp
  | cons a rest ih =>
    rcases List.pairwise_cons.mp hdist with ⟨ha, hrest⟩
    cases h : joinMatches p a with
    | false => simp [List.filter_cons, h, List.find?_cons, ih hrest]
    | true =>
      have hp : p.Name = a.Name := by
        simpa [joinMatches] using h
      have hnil : rest.filter (joinMatches p) = [] := by
        apply List.filter_eq_nil_iff.mpr
        intro b hb
        have hab := ha b hb
        simp [joinMatches, hp]
        exact hab
      simp [List.filter_cons, h, List.find?_cons, hnil]

theorem flatMap_toList_eq_filterMap {α β : Type} (f : α → Option β)
    (l : List α) :
    l.flatMap (fun a => (f a).toList) = l.filterMap f := by
  induction l with
  | nil => simp
  | cons a rest ih =>
    cases h : f a <;> simp [List.flatMap_cons, List.filterMap_cons, h, ih]

/-! ## Prompt builder lemmas -/

theorem multiShot_foldl_eq (ms : List MultiShot) (acc : String) :
    ms.foldl
      (fun sb m =>
        sb ++ "<example>" ++ "input: " ++ m.Input ++ "\noutput: " ++ m.Output ++
          "</example>")
      acc
      = acc ++ specExamplesConcat ms := by
  induction ms generalizing acc with
  | nil => simp [specExamplesConcat, String.append_empty]
  | cons m rest ih =>
    rw [List.foldl_cons, ih, specExamplesConcat]
    simp [specWrapExample, String.append_assoc]

theorem multiShotWrapper_eq (ms : List MultiShot) :
    multiShotWrapper ms = "<examples>" ++ specExamplesConcat ms ++ "</examples>" := by
  rw [multiShotWrapper, multiShot_foldl_eq]

/-! ## Claim theorems -/

/-- Claim C4: the prompt builder is pure and deterministic, and its result
is the concatenation of the instruction, then every example wrapped in the
fixed example-delimiter format in list order, then the literal payload
prefixed with the `input: ` label. -/
theorem buildFinalPrompt_pure_concat (prompt : String) (ms : List MultiShot)
    (inputData : String) :
    buildFinalPrompt prompt ms inputData = buildFinalPrompt prompt ms inputData ∧
    buildFinalPrompt prompt ms inputData = specPromptConcat prompt ms inputData := by
  refine ⟨rfl, ?_⟩
  rw [buildFinalPrompt, specPromptConcat, multiShotWrapper_eq]
  simp only [String.append_assoc]

/-- Claim C8: the join emits exactly one `JoinedForecastPeriodsInformation`
per (source period, LLM record) pair with equal names, ordered by
source-period position and then by LLM-record position; in particular the
output length is the sum over source periods of the number of records
sharing the period's name. -/
theorem joinAll_pairs (periods : List SimplifiedForecastPeriods)
    (fpi : List GetForecastPeriodsInformation) :
    joinAllForecastPeriodsInformation periods fpi
      = periods.flatMap (fun p =>
          (fpi.filter (joinMatches p)).map
            (fun a => JoinForecastPeriodsInformation a p)) ∧
    (joinAllForecastPeriodsInformation periods fpi).length
      = (periods.map (fun p => (fpi.filter (joinMatches p)).length)).sum := by
  refine ⟨joinAll_eq_flatMap periods fpi, ?_⟩
  rw [joinAll_eq_flatMap, List.length_flatMap]
  have hlen : (List.length ∘ fun p =>
      (fpi.filter (joinMatches p)).map
        (fun a => JoinForecastPeriodsInformation a p))
      = fun p => (fpi.filter (joinMatches p)).length := by
    funext p
    simp
  rw [hlen]

/-- Claim C1 (counterexample): with two LLM records both named `Tonight`
and a single source period of that name, the join output has length 2,
exceeding the source-period count, so the claimed length bound fails as
universally stated. -/
theorem joinAll_length_counterexample :
    ¬((joinAllForecastPeriodsInformation [periodX] [annX1, annX2]).length
      ≤ ([periodX] : List SimplifiedForecastPeriods).length) := by
  decide

/-- Claim C1 (amended): provided the LLM records carry pairwise-distinct
names, the join output is the in-order `filterMap` of the source list —
each source period is either dropped (no record of its name) or joined with
the unique record of its name, preserving source order and the period's
non-derived fields — and its length is at most the source length. -/
theorem joinAll_shape_of_distinct (periods : List SimplifiedForecastPeriods)
    (fpi : List GetForecastPeriodsInformation)
    (hdist : fpi.Pairwise (fun x y => x.Name ≠ y.Name)) :
    joinAllForecastPeriodsInformation periods fpi
      = periods.filterMap (fun p =>
          (fpi.find? (joinMatches p)).map
            (fun a => JoinForecastPeriodsInformation a p)) ∧
    (joinAllForecastPeriodsInformation periods fpi).length ≤ periods.length := by
  have hpt : ∀ p : SimplifiedForecastPeriods,
      (fpi.filter (joinMatches p)).map
          (fun a => JoinForecastPeriodsInformation a p)
        = ((fpi.find? (joinMatches p)).map
            (fun a => JoinForecastPeriodsInformation a p)).toList := by
    intro p
    rw [filter_eq_findQ_toList p fpi hdist]
    cases fpi.find? (joinMatches p) <;> simp
  have hmain : joinAllForecastPeriodsInformation periods fpi
      = periods.filterMap (fun p =>
          (fpi.find? (joinMatches p)).map
            (fun a => JoinForecastPeriodsInformation a p)) := by
    rw [joinAll_eq_flatMap]
    simp only [hpt]
    exact flatMap_toList_eq_filterMap _ periods
  refine ⟨hmain, ?_⟩
  rw [hmain]
  exact List.length_filterMap_le _ _

/-- Claim C1 witness: a concrete distinct-name instance. -/
theorem joinAll_shape_of_distinct_witness :
    joinAllForecastPeriodsInformation [periodX, periodY] [annX1]
      = ([periodX, periodY] : List SimplifiedForecastPeriods).filterMap
          (fun p =>
            (([annX1] : List GetForecastPeriodsInformation).find?
                (joinMatches p)).map
              (fun a => JoinForecastPeriodsInformation a p)) ∧
    (joinAllForecastPeriodsInformation [periodX, periodY] [annX1]).length
      ≤ ([periodX, periodY] : List SimplifiedForecastPeriods).length :=
  joinAll_shape_of_distinct [periodX, periodY] [annX1] (by decide)

/-- Claim C6: a source period whose name matches no LLM record is entirely
absent from the join output: no output entry carries its name. -/
theorem unmatched_period_absent (periods : List SimplifiedForecastPeriods)
    (fpi : List GetForecastPeriodsInformation) (p : SimplifiedForecastPeriods)
    (_hp : p ∈ periods) (hnone : ∀ a ∈ fpi, a.Name ≠ p.Name) :
    ∀ e ∈ joinAllForecastPeriodsInformation periods fpi, e.Name ≠ p.Name := by
  intro e he
  rw [joinAll_eq_flatMap] at he
  rcases List.mem_flatMap.mp he with ⟨q, _hq, hmem⟩
  rcases List.mem_map.mp hmem with ⟨a, ha, rfl⟩
  have haf := List.mem_filter.mp ha
  intro hEq
  exact hnone a haf.1 (by simpa [JoinForecastPeriodsInformation] using hEq)

/-- Claim C6 witness: with records only for `Tonight`, the single join
output entry (concretely, the join of `annX1` with `periodX`) does not
carry the unmatched name `Sunday`. -/
theorem unmatched_period_absent_witness :
    (JoinForecastPeriodsInformation annX1 periodX).Name ≠ periodY.Name :=
  unmatched_period_absent [periodX, periodY] [annX1] periodY (by decide)
    (by decide) (JoinForecastPeriodsInformation annX1 periodX) (by decide)

/-- Claim C3: given any upstream forecast response, the period-count
parameter behaves as: `-1` returns every available period; `0 < n ≤`
available count returns exactly the first `n` periods in provider order;
`n` greater than the available count makes the truncating slice index out
of range (no clamping). -/
theorem getSimplifiedForecastNPeriods_spec (forecast : ForecastResponse)
    (n : Int) :
    (n = -1 →
      GetSimplifiedForecastNPeriods forecast n
        = .periods (forecastResponeToSimplifiedForecastPeriods forecast)) ∧
    (0 < n →
      n ≤ ((forecastResponeToSimplifiedForecastPeriods forecast).length : Int) →
      GetSimplifiedForecastNPeriods forecast n
        = .periods ((forecastResponeToSimplifiedForecastPeriods forecast).take
            n.toNat)) ∧
    (((forecastResponeToSimplifiedForecastPeriods forecast).length : Int) < n →
      GetSimplifiedForecastNPeriods forecast n = .panicked) := by
  refine ⟨?_, ?_, ?_⟩
  · intro h
    simp [GetSimplifiedForecastNPeriods, h]
  · intro h1 h2
    have hne : n ≠ -1 := by omega
    simp only [GetSimplifiedForecastNPeriods]
    rw [if_neg hne, if_pos ⟨by omega, h2⟩]
  · intro h
    have hne : n ≠ -1 := by omega
    simp only [GetSimplifiedForecastNPeriods]
    rw [if_neg hne, if_neg (by omega)]

/-- Claim C3 witness: on a one-period response, `-1` returns the period,
`1` returns the first period, and `5` panics. -/
theorem getSimplifiedForecastNPeriods_witness :
    GetSimplifiedForecastNPeriods forecast0 (-1)
      = .periods (forecastResponeToSimplifiedForecastPeriods forecast0) ∧
    GetSimplifiedForecastNPeriods forecast0 1
      = .periods ((forecastResponeToSimplifiedForecastPeriods forecast0).take
          (1 : Int).toNat) ∧
    GetSimplifiedForecastNPeriods forecast0 5 = .panicked :=
  ⟨(getSimplifiedForecastNPeriods_spec forecast0 (-1)).1 rfl,
   (getSimplifiedForecastNPeriods_spec forecast0 1).2.1 (by decide) (by decide),
   (getSimplifiedForecastNPeriods_spec forecast0 5).2.2 (by decide)⟩

/-- Claim C7: with authentication enabled in API-key mode, any request
whose `X-API-Key` header value (the empty string when the header is
omitted) equals none of the configured keys receives the RFC 9457 problem
response with status 401, and the wrapped handler is not invoked. -/
theorem authenticationMiddleware_rejects (keys : List String)
    (headerXAPIKey : String) (h : ∀ k ∈ keys, headerXAPIKey ≠ k) :
    AuthenticationMiddleware ⟨.apiKey, keys⟩ headerXAPIKey
      = .problem "invalid api key"
          (headerXAPIKey ++ " is not a valid api key") 401 ∧
    AuthenticationMiddleware ⟨.apiKey, keys⟩ headerXAPIKey
      ≠ .next := by
  have hany : (keys.any (fun key => headerXAPIKey == key)) = false := by
    rw [List.any_eq_false]
    intro k hk
    simpa using h k hk
  constructor
  · simp [AuthenticationMiddleware, hany]
  · simp [AuthenticationMiddleware, hany]

/-- Claim C7 witness: one configured key, header omitted (empty value). -/
theorem authenticationMiddleware_rejects_witness :
    AuthenticationMiddleware ⟨.apiKey, ["secret-key"]⟩ ""
      = .problem "invalid api key" ("" ++ " is not a valid api key") 401 ∧
    AuthenticationMiddleware ⟨.apiKey, ["secret-key"]⟩ "" ≠ .next :=
  authenticationMiddleware_rejects ["secret-key"] "" (by decide)

/-- Claim C2 (counterexample): a cache hit on the non-JSON blob `corrupt`
whose decode fails is answered with HTTP 200, but the body is the re-marshal
of the zero-valued struct, not the originally cached bytes: the source
writes `fsrJson` (the re-marshal), never `res`. -/
theorem hitDecodeFailure_not_verbatim :
    GetForecastSummary envS2
      = (.ok "\x7b\"summary\":\"\",\"icon\":\"\",\"last_updated\":0\x7d",
         [.cacheUnmarshalError]) ∧
    ("\x7b\"summary\":\"\",\"icon\":\"\",\"last_updated\":0\x7d" : String)
      ≠ "corrupt" := by
  constructor
  · rfl
  · decide

/-- Claim C2 (amended): on a cache hit (nil read error, non-empty value)
whose decode fails, the error is only logged and the request still returns
HTTP 200, but the body served is the JSON re-marshal of the struct the
failed decode left behind, not the originally cached bytes — in both
handlers. -/
theorem hitDecodeFailure_logs_and_remarshals (envS : SummaryEnv)
    (envP : PeriodsEnv) (v w : String)
    (hS1 : envS.cacheGet = .found v) (hSv : v ≠ "")
    (hS2 : (envS.unmarshalSummary v).2 = true)
    (hP1 : envP.cacheGet = .found w) (hPw : w ≠ "")
    (hP2 : (envP.unmarshalResponse w).2 = true) :
    GetForecastSummary envS
      = (.ok (marshalSummary (envS.unmarshalSummary v).1),
         [.cacheUnmarshalError]) ∧
    GetForcastPeriodsInformation envP
      = (.ok (marshalPeriodsResponse (envP.unmarshalResponse w).1),
         [.cacheUnmarshalError]) := by
  constructor
  · simp [GetForecastSummary, hS1, hSv, hS2]
  · simp [GetForcastPeriodsInformation, hP1, hPw, hP2]

/-- Claim C2 witness: the concrete corrupt-hit environments. -/
theorem hitDecodeFailure_witness :
    GetForecastSummary envS2
      = (.ok (marshalSummary (envS2.unmarshalSummary "corrupt").1),
         [.cacheUnmarshalError]) ∧
    GetForcastPeriodsInformation envP2
      = (.ok (marshalPeriodsResponse (envP2.unmarshalResponse "corrupt").1),
         [.cacheUnmarshalError]) :=
  hitDecodeFailure_logs_and_remarshals envS2 envP2 "corrupt" "corrupt"
    rfl (by decide) rfl rfl (by decide) rfl

/-- Claim C5: when the cache read fails with a non-`redis.Nil` error and the
cache write also fails, but the miss path succeeds (source fetch ok,
inference reply present and parseable), both handlers still answer HTTP 200
with the freshly generated body, and exactly the read error and the write
error are logged, in that order. -/
theorem cacheUnreachable_still_succeeds (envS : SummaryEnv) (envP : PeriodsEnv)
    (psS psP : List SimplifiedForecastPeriods) (tS tP : String)
    (restS restP : List String)
    (hS1 : envS.cacheGet = .errOther) (hS2 : envS.cacheSetErr = true)
    (hS3 : envS.nwsResult = some psS)
    (hS4 : envS.inferenceContent = some (tS :: restS))
    (hS5 : (envS.unmarshalSummary tS).2 = false)
    (hP1 : envP.cacheGet = .errOther) (hP2 : envP.cacheSetErr = true)
    (hP3 : envP.nwsResult = some psP)
    (hP4 : envP.inferenceContent = some (tP :: restP))
    (hP5 : (envP.unmarshalInfoList tP).2 = false) :
    GetForecastSummary envS
      = (.ok (marshalSummary
            ⟨(envS.unmarshalSummary tS).1.Summary,
             (envS.unmarshalSummary tS).1.Icon, envS.now⟩),
         [.cacheReadError, .cacheWriteError]) ∧
    GetForcastPeriodsInformation envP
      = (.ok (marshalPeriodsResponse
            ⟨joinAllForecastPeriodsInformation psP
               (envP.unmarshalInfoList tP).1, envP.now⟩),
         [.cacheReadError, .cacheWriteError]) := by
  constructor
  · simp [GetForecastSummary, getForecastSummaryMiss, hS1, hS2, hS3, hS4, hS5]
  · simp [GetForcastPeriodsInformation, getForcastPeriodsInformationMiss,
      hP1, hP2, hP3, hP4, hP5]

/-- Claim C5 witness: the concrete unreachable-cache environments. -/
theorem cacheUnreachable_witness :
    GetForecastSummary envS5
      = (.ok (marshalSummary
            ⟨(envS5.unmarshalSummary "reply").1.Summary,
             (envS5.unmarshalSummary "reply").1.Icon, envS5.now⟩),
         [.cacheReadError, .cacheWriteError]) ∧
    GetForcastPeriodsInformation envP5
      = (.ok (marshalPeriodsResponse
            ⟨joinAllForecastPeriodsInformation [periodX]
               (envP5.unmarshalInfoList "reply").1, envP5.now⟩),
         [.cacheReadError, .cacheWriteError]) :=
  cacheUnreachable_still_succeeds envS5 envP5 [periodX] [periodX]
    "reply" "reply" [] [] rfl rfl rfl rfl rfl rfl rfl rfl rfl rfl

/-- Claim C9: on the miss path, both handlers read the first content block
of the inference reply without checking that one exists: an inference reply
with an empty content slice makes the element-0 access go out of bounds. -/
theorem emptyContent_panics (envS : SummaryEnv) (envP : PeriodsEnv)
    (psS psP : List SimplifiedForecastPeriods)
    (hS1 : envS.cacheGet = .errNil) (hS2 : envS.nwsResult = some psS)
    (hS3 : envS.inferenceContent = some [])
    (hP1 : envP.cacheGet = .errNil) (hP2 : envP.nwsResult = some psP)
    (hP3 : envP.inferenceContent = some []) :
    GetForecastSummary envS
      = (.panicked "index out of range [0] with length 0", []) ∧
    GetForcastPeriodsInformation envP
      = (.panicked "index out of range [0] with length 0", []) := by
  constructor
  · simp [GetForecastSummary, getForecastSummaryMiss, hS1, hS2, hS3]
  · simp [GetForcastPeriodsInformation, getForcastPeriodsInformationMiss,
      hP1, hP2, hP3]

/-- Claim C9 witness: the concrete empty-content environments. -/
theorem emptyContent_panics_witness :
    GetForecastSummary envS9
      = (.panicked "index out of range [0] with length 0", []) ∧
    GetForcastPeriodsInformation envP9
      = (.panicked "index out of range [0] with length 0", []) :=
  emptyContent_panics envS9 envP9 [periodX] [periodX] rfl rfl rfl rfl rfl rfl

/-- Claim C10: a successful cache read of the empty string is treated as a
miss — both handlers then run the full regeneration (miss) path with no log
entry — while a successful read of a non-empty value takes the hit path,
serving the re-marshal of the decoded value without touching source or
inference. -/
theorem emptyValue_is_miss (envS1 envS2m : SummaryEnv)
    (envP1 envP2m : PeriodsEnv) (v w : String)
    (hS1 : envS1.cacheGet = .found "")
    (hS2 : envS2m.cacheGet = .found v) (hSv : v ≠ "")
    (hP1 : envP1.cacheGet = .found "")
    (hP2 : envP2m.cacheGet = .found w) (hPw : w ≠ "") :
    GetForecastSummary envS1 = getForecastSummaryMiss envS1 [] ∧
    GetForecastSummary envS2m
      = (.ok (marshalSummary (envS2m.unmarshalSummary v).1),
         if (envS2m.unmarshalSummary v).2 then [LogEvent.cacheUnmarshalError]
         else []) ∧
    GetForcastPeriodsInformation envP1
      = getForcastPeriodsInformationMiss envP1 [] ∧
    GetForcastPeriodsInformation envP2m
      = (.ok (marshalPeriodsResponse (envP2m.unmarshalResponse w).1),
         if (envP2m.unmarshalResponse w).2 then [LogEvent.cacheUnmarshalError]
         else []) := by
  refine ⟨?_, ?_, ?_, ?_⟩
  · simp [GetForecastSummary, hS1]
  · simp [GetForecastSummary, hS2, hSv]
  · simp [GetForcastPeriodsInformation, hP1]
  · simp [GetForcastPeriodsInformation, hP2, hPw]

/-- Claim C10 witness: concrete empty-value and non-empty-value reads. -/
theorem emptyValue_is_miss_witness :
    GetForecastSummary envS10a = getForecastSummaryMiss envS10a [] ∧
    GetForecastSummary envS10b
      = (.ok (marshalSummary
            (envS10b.unmarshalSummary "\x7b\"summary\":\"hi\"\x7d").1),
         if (envS10b.unmarshalSummary "\x7b\"summary\":\"hi\"\x7d").2 then
           [LogEvent.cacheUnmarshalError]
         else []) ∧
    GetForcastPeriodsInformation envP10a
      = getForcastPeriodsInformationMiss envP10a [] ∧
    GetForcastPeriodsInformation envP10b
      = (.ok (marshalPeriodsResponse
            (envP10b.unmarshalResponse "\x7b\"periods\":[]\x7d").1),
         if (envP10b.unmarshalResponse "\x7b\"periods\":[]\x7d").2 then
           [LogEvent.cacheUnmarshalError]
         else []) :=
  emptyValue_is_miss envS10a envS10b envP10a envP10b
    "\x7b\"summary\":\"hi\"\x7d" "\x7b\"periods\":[]\x7d"
    rfl rfl (by decide) rfl rfl (by decide)
